import Mathlib

/-!
Verification of the NRF24 radio driver (NRF24.cpp) against its specification.

The driver is embedded shallowly: the chip's single-byte registers are a
function `regs : Nat → Nat` (each read is taken modulo 256, mirroring the
`uint8_t` bus), the two multi-byte address registers that the claims care
about (`RX_ADDR_P0`, `TX_ADDR`) are kept as explicit 5-byte lists, the CE
control line is a boolean, and every bus transaction is recorded in an event
trace (newest event first).  Driver-side shadow state (`previousTXAddress`,
`previousRXAddress`, `listening`, `numPipes`, ...) follows the C++ members.
Hardware-driven register changes between calls are modelled by quantifying
over the register file; the transmit busy-poll, whose whole point is that the
status register changes while polling, takes the sequence of status readings
and of millisecond-clock readings as oracles.
-/

namespace NRF24

/-- Modelled from the spec: register addresses from the chip register map
(the repository's NRF24.h header is not under src/; these are the standard
nRF24L01+ datasheet values the implementation file is compiled against). -/
def CONFIG : Nat := 0x00

/-- Modelled from the spec: per-pipe auto-ack enable register. -/
def EN_AA : Nat := 0x01

/-- Modelled from the spec: per-pipe address-enable register. -/
def EN_RXADDR : Nat := 0x02

/-- Modelled from the spec: address-width register. -/
def SETUP_AW : Nat := 0x03

/-- Modelled from the spec: retry delay/count register. -/
def SETUP_RETR : Nat := 0x04

/-- Modelled from the spec: channel register. -/
def RF_CH : Nat := 0x05

/-- Modelled from the spec: data-rate / power-amplifier register. -/
def RF_SETUP : Nat := 0x06

/-- Modelled from the spec: status register (three interrupt flags plus the
pipe index of the next payload). -/
def STATUS : Nat := 0x07

/-- Modelled from the spec: transmit-attempt diagnostic register. -/
def OBSERVE_TX : Nat := 0x08

/-- Modelled from the spec: pipe 0 receive-address register (5 bytes). -/
def RX_ADDR_P0 : Nat := 0x0A

/-- Modelled from the spec: transmit-address register (5 bytes). -/
def TX_ADDR : Nat := 0x10

/-- Modelled from the spec: queue-empty/full flag register. -/
def FIFO_STATUS : Nat := 0x17

/-- Modelled from the spec: per-pipe dynamic-payload enable register. -/
def DYNPD : Nat := 0x1C

/-- Modelled from the spec: extended-feature enable register. -/
def FEATURE : Nat := 0x1D

/-- Modelled from the spec: feature-unlock command register (magic byte 0x73
is written to it once at startup). -/
def ACTIVATE : Nat := 0x50

/-- Modelled from the spec: dynamic payload width read command/register. -/
def R_RX_PL_WID : Nat := 0x60

/-- Modelled from the spec: CONFIG power bit (PWR_UP), bit 1. -/
def PWR_UP : Nat := 0x02

/-- Modelled from the spec: CONFIG receive-mode bit (PRIM_RX), bit 0. -/
def PRIM_RX : Nat := 0x01

/-- Modelled from the spec: CONFIG CRC-enable bit. -/
def EN_CRC : Nat := 0x08

/-- Modelled from the spec: CONFIG CRC-width bit. -/
def CRCO : Nat := 0x04

/-- Modelled from the spec: STATUS data-ready interrupt flag. -/
def RX_DR : Nat := 0x40

/-- Modelled from the spec: STATUS transmit-done interrupt flag. -/
def TX_DS : Nat := 0x20

/-- Modelled from the spec: STATUS max-retries-exceeded interrupt flag. -/
def MAX_RT : Nat := 0x10

/-- Modelled from the spec: FIFO_STATUS transmit-queue-empty flag. -/
def TX_EMPTY : Nat := 0x10

/-- Modelled from the spec: FIFO_STATUS transmit-queue-full flag. -/
def TX_FULL_FIFO : Nat := 0x20

/-- Modelled from the spec: RF_SETUP data-rate and power bits. -/
def RF_DR_LOW : Nat := 0x20

/-- Modelled from the spec: RF_SETUP high data-rate bit. -/
def RF_DR_HIGH : Nat := 0x08

/-- Modelled from the spec: RF_SETUP power-amplifier low bit. -/
def RF_PA_LOW : Nat := 0x02

/-- Modelled from the spec: RF_SETUP power-amplifier high bit. -/
def RF_PA_HIGH : Nat := 0x04

/-- Modelled from the spec: FEATURE dynamic-payload enable bit. -/
def EN_DPL : Nat := 0x04

/-- Modelled from the spec: FEATURE ack-payload enable bit. -/
def EN_ACK_PAY : Nat := 0x02

/-- Modelled from the spec: FEATURE dynamic-ack (no-ack-on-demand) bit. -/
def EN_DYN_ACK : Nat := 0x01

/-- Every bus transaction the driver performs, as recorded in the trace
(newest first).  Register reads and writes, the two payload directions, the
ack-payload upload, FIFO flushes and the bare status poll (`SPI.transfer(NOP)`
inside the transmit loop). -/
inductive Ev where
  | readReg (reg : Nat)
  | writeReg (reg : Nat) (value : Nat)
  | writeRegBytes (reg : Nat) (bytes : List Nat)
  | txPayload (ack : Bool) (bytes : List Nat)
  | ackPayload (bytes : List Nat)
  | rxPayload (count : Nat)
  | statusPoll
  | flushTXCmd
  | flushRXCmd
  deriving Repr, DecidableEq

/-- The combined chip/driver state: register file, the two tracked multi-byte
address registers, the CE line level, the driver's shadow members from the
C++ class, and the bus-event trace. -/
structure State where
  regs : Nat → Nat
  rxAddrP0 : List Nat
  txAddr : List Nat
  ce : Bool
  netmask : Nat
  ownAddress : Nat
  previousTXAddress : Nat
  previousRXAddress : Nat
  listening : Bool
  numPipes : Nat
  ackEnabled : Bool
  trace : List Ev

/-- `NRF24::readRegister`: one bus transaction returning the register byte. -/
def readRegister (reg : Nat) (s : State) : Nat × State :=
  (s.regs reg % 256, { s with trace := Ev.readReg reg :: s.trace })

/-- `NRF24::writeRegister` (single byte). -/
def writeRegister (reg value : Nat) (s : State) : State :=
  { s with
    regs := Function.update s.regs reg (value % 256)
    trace := Ev.writeReg reg (value % 256) :: s.trace }

/-- `NRF24::writeRegister` (multi-byte overload); the two 5-byte address
registers the claims depend on are tracked explicitly. -/
def writeRegisterBytes (reg : Nat) (bytes : List Nat) (s : State) : State :=
  let bs := bytes.map (· % 256)
  let s1 := { s with trace := Ev.writeRegBytes reg bs :: s.trace }
  if reg = RX_ADDR_P0 then { s1 with rxAddrP0 := bs }
  else if reg = TX_ADDR then { s1 with txAddr := bs }
  else s1

/-- `NRF24::ceHigh` — raise the chip-enable line. -/
def ceHigh (s : State) : State := { s with ce := true }

/-- `NRF24::ceLow` — lower the chip-enable line. -/
def ceLow (s : State) : State := { s with ce := false }

/-- `NRF24::ceIsHigh` — the CE line is readable back. -/
def ceIsHigh (s : State) : Bool := s.ce

/-- `NRF24::flushTX`. -/
def flushTX (s : State) : State := { s with trace := Ev.flushTXCmd :: s.trace }

/-- `NRF24::flushRX`. -/
def flushRX (s : State) : State := { s with trace := Ev.flushRXCmd :: s.trace }

@[simp] theorem readRegister_fst (reg : Nat) (s : State) :
    (readRegister reg s).1 = s.regs reg % 256 := rfl

@[simp] theorem readRegister_snd_fields (reg : Nat) (s : State) :
    (readRegister reg s).2.regs = s.regs ∧
    (readRegister reg s).2.rxAddrP0 = s.rxAddrP0 ∧
    (readRegister reg s).2.txAddr = s.txAddr ∧
    (readRegister reg s).2.ce = s.ce ∧
    (readRegister reg s).2.netmask = s.netmask ∧
    (readRegister reg s).2.ownAddress = s.ownAddress ∧
    (readRegister reg s).2.previousTXAddress = s.previousTXAddress ∧
    (readRegister reg s).2.previousRXAddress = s.previousRXAddress ∧
    (readRegister reg s).2.listening = s.listening ∧
    (readRegister reg s).2.numPipes = s.numPipes ∧
    (readRegister reg s).2.ackEnabled = s.ackEnabled :=
  ⟨rfl, rfl, rfl, rfl, rfl, rfl, rfl, rfl, rfl, rfl, rfl⟩

@[simp] theorem writeRegister_fields (reg v : Nat) (s : State) :
    (writeRegister reg v s).regs = Function.update s.regs reg (v % 256) ∧
    (writeRegister reg v s).rxAddrP0 = s.rxAddrP0 ∧
    (writeRegister reg v s).txAddr = s.txAddr ∧
    (writeRegister reg v s).ce = s.ce ∧
    (writeRegister reg v s).netmask = s.netmask ∧
    (writeRegister reg v s).ownAddress = s.ownAddress ∧
    (writeRegister reg v s).previousTXAddress = s.previousTXAddress ∧
    (writeRegister reg v s).previousRXAddress = s.previousRXAddress ∧
    (writeRegister reg v s).listening = s.listening ∧
    (writeRegister reg v s).numPipes = s.numPipes ∧
    (writeRegister reg v s).ackEnabled = s.ackEnabled :=
  ⟨rfl, rfl, rfl, rfl, rfl, rfl, rfl, rfl, rfl, rfl, rfl⟩

@[simp] theorem writeRegisterBytes_fields (reg : Nat) (bs : List Nat) (s : State) :
    (writeRegisterBytes reg bs s).regs = s.regs ∧
    (writeRegisterBytes reg bs s).ce = s.ce ∧
    (writeRegisterBytes reg bs s).netmask = s.netmask ∧
    (writeRegisterBytes reg bs s).ownAddress = s.ownAddress ∧
    (writeRegisterBytes reg bs s).previousTXAddress = s.previousTXAddress ∧
    (writeRegisterBytes reg bs s).previousRXAddress = s.previousRXAddress ∧
    (writeRegisterBytes reg bs s).listening = s.listening ∧
    (writeRegisterBytes reg bs s).numPipes = s.numPipes ∧
    (writeRegisterBytes reg bs s).ackEnabled = s.ackEnabled := by
  unfold writeRegisterBytes
  split
  · exact ⟨rfl, rfl, rfl, rfl, rfl, rfl, rfl, rfl, rfl⟩
  · split <;> exact ⟨rfl, rfl, rfl, rfl, rfl, rfl, rfl, rfl, rfl⟩

@[simp] theorem writeRegisterBytes_rxAddrP0_self (bs : List Nat) (s : State) :
    (writeRegisterBytes RX_ADDR_P0 bs s).rxAddrP0 = bs.map (· % 256) := by
  unfold writeRegisterBytes
  simp

theorem writeRegisterBytes_rxAddrP0_ne (reg : Nat) (bs : List Nat) (s : State)
    (h : reg ≠ RX_ADDR_P0) :
    (writeRegisterBytes reg bs s).rxAddrP0 = s.rxAddrP0 := by
  unfold writeRegisterBytes
  rw [if_neg h]
  split <;> rfl

@[simp] theorem ceHigh_fields (s : State) :
    (ceHigh s).regs = s.regs ∧ (ceHigh s).rxAddrP0 = s.rxAddrP0 ∧
    (ceHigh s).txAddr = s.txAddr ∧ (ceHigh s).ce = true ∧
    (ceHigh s).netmask = s.netmask ∧ (ceHigh s).ownAddress = s.ownAddress ∧
    (ceHigh s).previousTXAddress = s.previousTXAddress ∧
    (ceHigh s).previousRXAddress = s.previousRXAddress ∧
    (ceHigh s).listening = s.listening ∧ (ceHigh s).numPipes = s.numPipes ∧
    (ceHigh s).ackEnabled = s.ackEnabled ∧ (ceHigh s).trace = s.trace :=
  ⟨rfl, rfl, rfl, rfl, rfl, rfl, rfl, rfl, rfl, rfl, rfl, rfl⟩

@[simp] theorem ceLow_fields (s : State) :
    (ceLow s).regs = s.regs ∧ (ceLow s).rxAddrP0 = s.rxAddrP0 ∧
    (ceLow s).txAddr = s.txAddr ∧ (ceLow s).ce = false ∧
    (ceLow s).netmask = s.netmask ∧ (ceLow s).ownAddress = s.ownAddress ∧
    (ceLow s).previousTXAddress = s.previousTXAddress ∧
    (ceLow s).previousRXAddress = s.previousRXAddress ∧
    (ceLow s).listening = s.listening ∧ (ceLow s).numPipes = s.numPipes ∧
    (ceLow s).ackEnabled = s.ackEnabled ∧ (ceLow s).trace = s.trace :=
  ⟨rfl, rfl, rfl, rfl, rfl, rfl, rfl, rfl, rfl, rfl, rfl, rfl⟩

@[simp] theorem flushTX_fields (s : State) :
    (flushTX s).regs = s.regs ∧ (flushTX s).rxAddrP0 = s.rxAddrP0 ∧
    (flushTX s).txAddr = s.txAddr ∧ (flushTX s).ce = s.ce ∧
    (flushTX s).netmask = s.netmask ∧ (flushTX s).ownAddress = s.ownAddress ∧
    (flushTX s).previousTXAddress = s.previousTXAddress ∧
    (flushTX s).previousRXAddress = s.previousRXAddress ∧
    (flushTX s).listening = s.listening ∧ (flushTX s).numPipes = s.numPipes ∧
    (flushTX s).ackEnabled = s.ackEnabled :=
  ⟨rfl, rfl, rfl, rfl, rfl, rfl, rfl, rfl, rfl, rfl, rfl⟩

@[simp] theorem flushRX_fields (s : State) :
    (flushRX s).regs = s.regs ∧ (flushRX s).rxAddrP0 = s.rxAddrP0 ∧
    (flushRX s).txAddr = s.txAddr ∧ (flushRX s).ce = s.ce ∧
    (flushRX s).netmask = s.netmask ∧ (flushRX s).ownAddress = s.ownAddress ∧
    (flushRX s).previousTXAddress = s.previousTXAddress ∧
    (flushRX s).previousRXAddress = s.previousRXAddress ∧
    (flushRX s).listening = s.listening ∧ (flushRX s).numPipes = s.numPipes ∧
    (flushRX s).ackEnabled = s.ackEnabled :=
  ⟨rfl, rfl, rfl, rfl, rfl, rfl, rfl, rfl, rfl, rfl, rfl⟩

/-- `NRF24::assembleFullAddress`: byte 0 is the node address, bytes 1..4 are
the 32-bit network mask in little-endian order. -/
def assembleFullAddress (netmask address : Nat) : List Nat :=
  [address % 256, netmask &&& 0xFF, (netmask >>> 8) &&& 0xFF,
   (netmask >>> 16) &&& 0xFF, (netmask >>> 24) &&& 0xFF]

theorem and_255_eq_mod (n : Nat) : n &&& 0xFF = n % 256 :=
  Nat.and_pow_two_sub_one_eq_mod n 8

theorem assembleFullAddress_eq (m a : Nat) :
    assembleFullAddress m a =
      [a % 256, m % 256, m / 2 ^ 8 % 256, m / 2 ^ 16 % 256, m / 2 ^ 24 % 256] := by
  simp [assembleFullAddress, and_255_eq_mod, Nat.shiftRight_eq_div_pow]

/-- C2: `assembleFullAddress` puts the node address in byte 0 and the network
mask's bytes, little-endian, in bytes 1–4; decomposing the five bytes back
into a node address and a mask reproduces the inputs exactly. -/
theorem assembleFullAddress_spec (m a : Nat) (ha : a < 256) (hm : m < 2 ^ 32) :
    assembleFullAddress m a =
      [a, m &&& 0xFF, (m >>> 8) &&& 0xFF, (m >>> 16) &&& 0xFF, (m >>> 24) &&& 0xFF] ∧
    (assembleFullAddress m a)[0]! = a ∧
    (assembleFullAddress m a)[1]! + 2 ^ 8 * (assembleFullAddress m a)[2]! +
      2 ^ 16 * (assembleFullAddress m a)[3]! + 2 ^ 24 * (assembleFullAddress m a)[4]! = m := by
  rw [assembleFullAddress_eq]
  refine ⟨?_, ?_, ?_⟩
  · simp [and_255_eq_mod, Nat.shiftRight_eq_div_pow, Nat.mod_eq_of_lt ha]
  · simp [Nat.mod_eq_of_lt ha]
  · simp only [List.getElem!_cons_zero, List.getElem!_cons_succ]
    omega

/-- C2 witness: the spec's concrete example — mask 0xAABBCCDD, node 0x02 —
assembles to [0x02, 0xDD, 0xCC, 0xBB, 0xAA] and decomposes back. -/
theorem assembleFullAddress_spec_witness :
    ((2 < 256 ∧ 0xAABBCCDD < 2 ^ 32) ∧ assembleFullAddress 0xAABBCCDD 2 = [0x02, 0xDD, 0xCC, 0xBB, 0xAA]) ∧
    (assembleFullAddress 0xAABBCCDD 2 =
      [2, 0xAABBCCDD &&& 0xFF, (0xAABBCCDD >>> 8) &&& 0xFF,
       (0xAABBCCDD >>> 16) &&& 0xFF, (0xAABBCCDD >>> 24) &&& 0xFF] ∧
    (assembleFullAddress 0xAABBCCDD 2)[0]! = 2 ∧
    (assembleFullAddress 0xAABBCCDD 2)[1]! + 2 ^ 8 * (assembleFullAddress 0xAABBCCDD 2)[2]! +
      2 ^ 16 * (assembleFullAddress 0xAABBCCDD 2)[3]! +
      2 ^ 24 * (assembleFullAddress 0xAABBCCDD 2)[4]! = 0xAABBCCDD) :=
  ⟨⟨⟨by norm_num, by norm_num⟩, by decide⟩,
   assembleFullAddress_spec 0xAABBCCDD 2 (by norm_num) (by norm_num)⟩

/-- The chip's operating modes (`nrf24_mode_e`). -/
inductive nrf24_mode_e where
  | POWER_DOWN
  | STANDBY1
  | STANDBY2
  | RX
  | TX
  deriving Repr, DecidableEq

/-- `NRF24::getCurrentMode`.  The power-down test is translated exactly as
written in C: `!config & PWR_UP` applies logical negation to `config` first
(yielding 1 when the byte is zero, 0 otherwise) and masks the result with
`PWR_UP` afterwards. -/
def getCurrentMode (s : State) : nrf24_mode_e × State :=
  let r := readRegister CONFIG s
  let config := r.1
  let s1 := r.2
  if ((if config = 0 then 1 else 0) &&& PWR_UP) ≠ 0 then (nrf24_mode_e.POWER_DOWN, s1)
  else if ¬ ceIsHigh s1 then (nrf24_mode_e.STANDBY1, s1)
  else if config &&& PRIM_RX ≠ 0 then (nrf24_mode_e.RX, s1)
  else
    let r2 := readRegister FIFO_STATUS s1
    let fifoEmpty := r2.1 &&& TX_EMPTY
    if fifoEmpty ≠ 0 then (nrf24_mode_e.STANDBY2, r2.2) else (nrf24_mode_e.TX, r2.2)

/-- A state with every driver member zeroed and a given register file; used
to build concrete inputs. -/
def mkState (regs : Nat → Nat) : State :=
  { regs := regs, rxAddrP0 := [], txAddr := [], ce := false, netmask := 0,
    ownAddress := 0, previousTXAddress := 0, previousRXAddress := 0,
    listening := false, numPipes := 0, ackEnabled := false, trace := [] }

/-- C1: the mode derivation can never report PowerDown.  `!config & PWR_UP`
negates before masking, so it is 1 &&& 0x02 = 0 when the byte is zero and
0 &&& 0x02 = 0 otherwise; in particular on a chip whose CONFIG register reads
0 (power bit clear) with CE low, the code returns Standby1 where its own
state-table comment requires PowerDown. -/
theorem getCurrentMode_never_powerDown :
    (∀ s : State, (getCurrentMode s).1 ≠ nrf24_mode_e.POWER_DOWN) ∧
    (mkState (fun _ => 0)).regs CONFIG % 256 &&& PWR_UP = 0 ∧
    ceIsHigh (mkState (fun _ => 0)) = false ∧
    (getCurrentMode (mkState (fun _ => 0))).1 = nrf24_mode_e.STANDBY1 := by
  refine ⟨?_, rfl, rfl, rfl⟩
  intro s
  simp only [getCurrentMode, readRegister_fst, ceIsHigh]
  have h1 : ((if s.regs CONFIG % 256 = 0 then 1 else 0) &&& PWR_UP) = 0 := by
    split <;> rfl
  rw [h1, if_neg (by simp)]
  split
  · simp
  · split
    · simp
    · split <;> simp

/-- `NRF24::setActive`: read-modify-write of the power bit (the 1.5 ms
settling delay is real time, not modelled). -/
def setActive (active : Bool) (s : State) : State :=
  let r := readRegister CONFIG s
  let config := r.1 &&& 0xFD
  let config := if active then config ||| PWR_UP else config
  writeRegister CONFIG config r.2

/-- `NRF24::getActive`. -/
def getActive (s : State) : Bool × State :=
  let r := readRegister CONFIG s
  (r.1 &&& PWR_UP ≠ 0, r.2)

/-- `NRF24::setAddress` (uint8_t parameter taken mod 256). -/
def setAddress (address : Nat) (s : State) : State :=
  let address := address % 256
  let s1 := { s with ownAddress := address }
  let buf := assembleFullAddress s1.netmask address
  let s2 := writeRegisterBytes RX_ADDR_P0 buf s1
  let s3 := { s2 with previousRXAddress := address }
  let r := readRegister EN_RXADDR s3
  writeRegister EN_RXADDR (r.1 ||| 0x01) r.2

/-- `NRF24::startListening`. -/
def startListening (s : State) : State :=
  let r := readRegister CONFIG s
  let s1 := writeRegister CONFIG (r.1 ||| PRIM_RX ||| PWR_UP) r.2
  let s2 := writeRegister STATUS (RX_DR ||| TX_DS ||| MAX_RT) s1
  let s3 :=
    if s2.previousRXAddress ≠ s2.ownAddress then
      let buf := assembleFullAddress s2.netmask s2.ownAddress
      let s4 := writeRegisterBytes RX_ADDR_P0 buf s2
      { s4 with previousRXAddress := s4.ownAddress }
    else s2
  let s5 := ceHigh s3
  let s6 := flushRX s5
  let s7 := flushTX s6
  { s7 with listening := true }

/-- `NRF24::stopListening` (clears PRIM_RX and PWR_UP: `& ~PRIM_RX & ~PWR_UP`
on a byte is `&&& 0xFE &&& 0xFD`). -/
def stopListening (s : State) : State :=
  let r := readRegister CONFIG s
  let s1 := writeRegister CONFIG (r.1 &&& 0xFE &&& 0xFD) r.2
  let s2 := ceLow s1
  let s3 := flushRX s2
  let s4 := flushTX s3
  { s4 with listening := false }

/-- `NRF24::listenToAddress` (uint8_t parameter taken mod 256): assigns the
next extra pipe, or fails with -1 once 5 extra pipes exist. -/
def listenToAddress (address : Nat) (s : State) : Int × State :=
  let address := address % 256
  if s.numPipes ≥ 5 then (-1, s)
  else
    let pipeIndex := s.numPipes + 1
    let s1 :=
      if pipeIndex ≤ 1 then
        writeRegisterBytes (RX_ADDR_P0 + pipeIndex) (assembleFullAddress s.netmask address) s
      else
        writeRegister (RX_ADDR_P0 + pipeIndex) address s
    let r := readRegister EN_RXADDR s1
    let s2 := writeRegister EN_RXADDR (r.1 ||| (1 <<< pipeIndex)) r.2
    let s3 := startListening s2
    ((s3.numPipes : Int), { s3 with numPipes := s3.numPipes + 1 })

/-- Iterate `listenToAddress` over a list of node addresses, collecting the
returned pipe indices. -/
def listenRun (addrs : List Nat) (s : State) : List Int × State :=
  match addrs with
  | [] => ([], s)
  | a :: rest =>
    let r := listenToAddress a s
    let rr := listenRun rest r.2
    (r.1 :: rr.1, rr.2)

theorem startListening_numPipes (s : State) : (startListening s).numPipes = s.numPipes := by
  simp only [startListening]
  split <;> simp

theorem listenToAddress_step (s : State) (a : Nat) (h : s.numPipes < 5) :
    (listenToAddress a s).1 = (s.numPipes : Int) ∧
    (listenToAddress a s).2.numPipes = s.numPipes + 1 := by
  have hn : ¬ s.numPipes ≥ 5 := by omega
  simp only [listenToAddress, if_neg hn]
  constructor <;> split <;> simp [startListening_numPipes]

theorem listenToAddress_full (s : State) (a : Nat) (h : 5 ≤ s.numPipes) :
    listenToAddress a s = (-1, s) := by
  simp [listenToAddress, h]

/-- C3: from a fresh driver (no extra pipes assigned) the first five
`listenToAddress` calls return pipe indices 0,1,2,3,4 in order; every call
made once 5 extra pipes are assigned returns the too-many-pipes error -1 and
leaves the state untouched (no rollback of earlier pipes). -/
theorem listenToAddress_spec (s : State) (h0 : s.numPipes = 0)
    (a1 a2 a3 a4 a5 a6 : Nat) :
    (listenRun [a1, a2, a3, a4, a5, a6] s).1 = [0, 1, 2, 3, 4, -1] ∧
    (listenRun [a1, a2, a3, a4, a5, a6] s).2.numPipes = 5 ∧
    (∀ (s' : State) (a : Nat), 5 ≤ s'.numPipes → listenToAddress a s' = (-1, s')) := by
  have step := listenToAddress_step
  have s1 := step s a1 (by omega)
  have s2 := step (listenToAddress a1 s).2 a2 (by omega)
  have s3 := step (listenToAddress a2 (listenToAddress a1 s).2).2 a3 (by omega)
  have s4 := step (listenToAddress a3 (listenToAddress a2 (listenToAddress a1 s).2).2).2 a4
    (by omega)
  have s5 := step (listenToAddress a4 (listenToAddress a3 (listenToAddress a2
    (listenToAddress a1 s).2).2).2).2 a5 (by omega)
  have s6 := listenToAddress_full (listenToAddress a5 (listenToAddress a4 (listenToAddress a3
    (listenToAddress a2 (listenToAddress a1 s).2).2).2).2).2 a6 (by omega)
  refine ⟨?_, ?_, fun s' a h => listenToAddress_full s' a h⟩
  · simp only [listenRun, s1.1, s2.1, s3.1, s4.1, s5.1, s6, h0, s1.2, s2.2, s3.2, s4.2, s5.2]
    norm_num
  · simp only [listenRun, s6]
    omega

/-- C3 witness: six calls on a concrete fresh state. -/
theorem listenToAddress_spec_witness :
    (mkState (fun _ => 0)).numPipes = 0 ∧
    ((listenRun [1, 2, 3, 4, 5, 6] (mkState (fun _ => 0))).1 = [0, 1, 2, 3, 4, -1] ∧
     (listenRun [1, 2, 3, 4, 5, 6] (mkState (fun _ => 0))).2.numPipes = 5 ∧
     (∀ (s' : State) (a : Nat), 5 ≤ s'.numPipes → listenToAddress a s' = (-1, s'))) :=
  ⟨rfl, listenToAddress_spec (mkState (fun _ => 0)) rfl 1 2 3 4 5 6⟩

/-- `NRF24::read` (buffer variant): pauses RX, reads the declared payload
width, clamps the clock-out count to the caller's capacity (the clocked-out
byte count is recorded as an `rxPayload` event), clears the data-ready flag,
resumes RX — and returns `payloadSize`, the declared width. -/
def read (bufferSize : Nat) (s : State) : Nat × State :=
  let s0 := ceLow s
  let r := readRegister R_RX_PL_WID s0
  let payloadSize := r.1
  let bufferSize := if bufferSize > payloadSize then payloadSize else bufferSize
  let s1 := { r.2 with trace := Ev.rxPayload bufferSize :: r.2.trace }
  let r2 := readRegister STATUS s1
  let s2 := writeRegister STATUS (r2.1 ||| RX_DR) r2.2
  let s3 := ceHigh s2
  (payloadSize, s3)

/-- C7 (amended): for every pending payload of declared width w and caller
capacity, the number of bytes clocked out and copied is min(capacity, w), but
the value returned to the caller is the declared width w itself — so when w
exceeds the capacity the caller gets w back, not the count copied. -/
theorem read_spec (s : State) (cap : Nat) :
    (read cap s).1 = s.regs R_RX_PL_WID % 256 ∧
    (read cap s).2.trace =
      Ev.writeReg STATUS ((s.regs STATUS % 256 ||| RX_DR) % 256) :: Ev.readReg STATUS ::
        Ev.rxPayload (min cap (s.regs R_RX_PL_WID % 256)) ::
        Ev.readReg R_RX_PL_WID :: s.trace := by
  have hmin : (if cap > s.regs R_RX_PL_WID % 256 then s.regs R_RX_PL_WID % 256 else cap) =
      min cap (s.regs R_RX_PL_WID % 256) := by
    split <;> omega
  constructor
  · rfl
  · simp only [read, ceHigh, ceLow, readRegister, writeRegister, hmin]

/-- C7 counterexample: declared width 5, capacity 3 — exactly 3 bytes are
clocked out, yet the call returns 5, not the 3 bytes actually copied. -/
theorem read_counterexample :
    (read 3 (mkState (fun r => if r = R_RX_PL_WID then 5 else 0))).1 = 5 ∧
    Ev.rxPayload 3 ∈
      (read 3 (mkState (fun r => if r = R_RX_PL_WID then 5 else 0))).2.trace ∧
    (read 3 (mkState (fun r => if r = R_RX_PL_WID then 5 else 0))).1 ≠ 3 := by
  refine ⟨rfl, ?_, by decide⟩
  simp [read, ceHigh, ceLow, readRegister, writeRegister, mkState]

/-- Ack-payload uploads, as a trace predicate. -/
def isAckPayloadEv : Ev → Bool
  | Ev.ackPayload _ => true
  | _ => false

theorem startListening_effects (s : State) :
    (startListening s).listening = true ∧
    (startListening s).ownAddress = s.ownAddress ∧
    (startListening s).netmask = s.netmask ∧
    (startListening s).previousRXAddress = s.ownAddress ∧
    (startListening s).ackEnabled = s.ackEnabled ∧
    (startListening s).previousTXAddress = s.previousTXAddress ∧
    (startListening s).ce = true := by
  simp only [startListening]
  split <;> simp_all

theorem startListening_regs_ne (s : State) (r : Nat) (h1 : r ≠ CONFIG) (h2 : r ≠ STATUS) :
    (startListening s).regs r = s.regs r := by
  simp only [startListening]
  split <;> simp [Function.update_noteq h1, Function.update_noteq h2]

theorem startListening_filter_ack (s : State) :
    ((startListening s).trace.filter isAckPayloadEv) = s.trace.filter isAckPayloadEv := by
  simp only [startListening, writeRegister, writeRegisterBytes, readRegister, ceHigh,
    flushRX, flushTX]
  split <;> simp [isAckPayloadEv]

theorem stopListening_effects (s : State) :
    (stopListening s).listening = false ∧
    (stopListening s).ownAddress = s.ownAddress ∧
    (stopListening s).netmask = s.netmask ∧
    (stopListening s).previousRXAddress = s.previousRXAddress ∧
    (stopListening s).rxAddrP0 = s.rxAddrP0 ∧
    (stopListening s).ce = false := by
  simp [stopListening]

/-- `NRF24::queueResponse`: truncate to 32 bytes, transiently enter listening
mode if needed, bail out (early return) if the TX FIFO is already full,
otherwise clock the payload into the ack slot and restore the prior mode. -/
def queueResponse (data : List Nat) (s : State) : Bool × State :=
  let length := data.length
  let length := if length > 32 then 32 else length
  let wasListening := s.listening
  let s1 := if s.listening = false then startListening s else s
  let r := readRegister FIFO_STATUS s1
  if r.1 &&& TX_FULL_FIFO ≠ 0 then (false, r.2)
  else
    let s2 := { r.2 with trace := Ev.ackPayload ((data.take length).map (· % 256)) :: r.2.trace }
    let s3 := if wasListening = false then stopListening s2 else s2
    (true, s3)

theorem queueResponse_read_val (s : State) :
    (if s.listening = false then startListening s else s).regs FIFO_STATUS =
      s.regs FIFO_STATUS := by
  split
  · exact startListening_regs_ne s FIFO_STATUS (by decide) (by decide)
  · rfl

/-- C8 (amended): when the transmit-side queue-full flag is set,
`queueResponse` returns false, never clocks in the ack payload, and performs
no bus transaction after the FIFO_STATUS check (the check is the newest trace
event) — but the early return skips the mode restore, so a caller that was
not listening is left in listening mode; only on the successful path is the
prior mode restored. -/
theorem queueResponse_spec (d : List Nat) (s : State)
    (hfull : s.regs FIFO_STATUS % 256 &&& TX_FULL_FIFO ≠ 0) :
    (queueResponse d s).1 = false ∧
    (∃ t, (queueResponse d s).2.trace = Ev.readReg FIFO_STATUS :: t) ∧
    (queueResponse d s).2.trace.filter isAckPayloadEv = s.trace.filter isAckPayloadEv ∧
    (s.listening = false → (queueResponse d s).2.listening = true) ∧
    (∀ (d' : List Nat) (s' : State), s'.regs FIFO_STATUS % 256 &&& TX_FULL_FIFO = 0 →
      (queueResponse d' s').1 = true ∧ (queueResponse d' s').2.listening = s'.listening) := by
  have hcond : (if s.listening = false then startListening s else s).regs FIFO_STATUS % 256
      &&& TX_FULL_FIFO ≠ 0 := by rw [queueResponse_read_val]; exact hfull
  have hq : queueResponse d s =
      (false, { (if s.listening = false then startListening s else s) with
        trace := Ev.readReg FIFO_STATUS ::
          (if s.listening = false then startListening s else s).trace }) := by
    simp only [queueResponse, readRegister]
    rw [if_pos hcond]
  refine ⟨by rw [hq], ?_, ?_, ?_, ?_⟩
  · exact ⟨(if s.listening = false then startListening s else s).trace, by rw [hq]⟩
  · rw [hq]
    show List.filter isAckPayloadEv (Ev.readReg FIFO_STATUS ::
      (if s.listening = false then startListening s else s).trace) =
        List.filter isAckPayloadEv s.trace
    rw [show List.filter isAckPayloadEv (Ev.readReg FIFO_STATUS ::
        (if s.listening = false then startListening s else s).trace) =
      List.filter isAckPayloadEv
        ((if s.listening = false then startListening s else s).trace) from rfl]
    split
    · exact startListening_filter_ack s
    · rfl
  · intro hl
    rw [hq]
    show (if s.listening = false then startListening s else s).listening = true
    rw [if_pos hl]
    exact (startListening_effects s).1
  · intro d' s' hok
    have hcond' : ¬ ((if s'.listening = false then startListening s' else s').regs
        FIFO_STATUS % 256 &&& TX_FULL_FIFO ≠ 0) := by
      rw [queueResponse_read_val]
      simpa using hok
    simp only [queueResponse, readRegister]
    rw [if_neg hcond']
    refine ⟨rfl, ?_⟩
    by_cases hl : s'.listening = false
    · simp only [if_pos hl]
      rw [(stopListening_effects _).1]
      exact hl.symm
    · simp only [if_neg hl]

/-- C8 counterexample: a non-listening driver whose TX FIFO reads full —
`queueResponse` returns false but leaves the driver in listening mode, so the
prior non-listening mode is not restored on the failure path. -/
theorem queueResponse_counterexample :
    (mkState (fun r => if r = FIFO_STATUS then 0x20 else 0)).listening = false ∧
    (queueResponse [1, 2] (mkState (fun r => if r = FIFO_STATUS then 0x20 else 0))).1 = false ∧
    (queueResponse [1, 2] (mkState (fun r => if r = FIFO_STATUS then 0x20 else 0))).2.listening
      = true := by
  refine ⟨rfl, ?_, ?_⟩ <;>
    simp [queueResponse, readRegister, startListening, writeRegister, writeRegisterBytes,
      ceHigh, flushRX, flushTX, mkState, Function.update, FIFO_STATUS, CONFIG, STATUS,
      TX_FULL_FIFO]

/-- C8 witness: the amended statement applied to the counterexample state. -/
theorem queueResponse_spec_witness :
    (mkState (fun r => if r = FIFO_STATUS then 0x20 else 0)).regs FIFO_STATUS % 256 &&&
        TX_FULL_FIFO ≠ 0 ∧
    ((queueResponse [1, 2] (mkState (fun r => if r = FIFO_STATUS then 0x20 else 0))).1 = false ∧
     (∃ t, (queueResponse [1, 2]
        (mkState (fun r => if r = FIFO_STATUS then 0x20 else 0))).2.trace =
          Ev.readReg FIFO_STATUS :: t) ∧
     (queueResponse [1, 2]
        (mkState (fun r => if r = FIFO_STATUS then 0x20 else 0))).2.trace.filter isAckPayloadEv
       = (mkState (fun r => if r = FIFO_STATUS then 0x20 else 0)).trace.filter isAckPayloadEv ∧
     ((mkState (fun r => if r = FIFO_STATUS then 0x20 else 0)).listening = false →
      (queueResponse [1, 2]
        (mkState (fun r => if r = FIFO_STATUS then 0x20 else 0))).2.listening = true) ∧
     (∀ (d' : List Nat) (s' : State), s'.regs FIFO_STATUS % 256 &&& TX_FULL_FIFO = 0 →
       (queueResponse d' s').1 = true ∧ (queueResponse d' s').2.listening = s'.listening)) :=
  ⟨by decide, queueResponse_spec [1, 2]
    (mkState (fun r => if r = FIFO_STATUS then 0x20 else 0)) (by decide)⟩

/-- The status-poll exit condition for read index `i` inside `transmit`'s
do-while loop: the transmit-done flag is observed, the max-retries flag is
observed, or the millis reading made in that iteration (`clockSeq (i+1)`;
`clockSeq 0` is the `txStarted` reading) has reached `txStarted + 500`. -/
def pollExit (statusSeq clockSeq : Nat → Nat) (txStarted i : Nat) : Prop :=
  statusSeq i &&& TX_DS ≠ 0 ∨ statusSeq i &&& MAX_RT ≠ 0 ∨
    ¬ clockSeq (i + 1) < txStarted + 500

instance (statusSeq clockSeq : Nat → Nat) (txStarted i : Nat) :
    Decidable (pollExit statusSeq clockSeq txStarted i) := by
  unfold pollExit
  exact inferInstance

/-- The busy-poll of `NRF24::transmit` (lines 652–664): read the status
byte, exit with `txComplete` when transmit-done is seen, exit false when
max-retries is seen, keep polling while the 500 ms watchdog window is open,
exit false when it has elapsed.  `fuel` bounds the recursion; `none` means
the fuel ran out before the loop exited. -/
def pollLoop (statusSeq clockSeq : Nat → Nat) (txStarted : Nat) : Nat → Nat → Option Bool
  | _, 0 => none
  | i, fuel + 1 =>
    let status := statusSeq i
    if status &&& TX_DS ≠ 0 then some true
    else if status &&& MAX_RT ≠ 0 then some false
    else if clockSeq (i + 1) < txStarted + 500 then
      pollLoop statusSeq clockSeq txStarted (i + 1) fuel
    else some false

theorem pollLoop_exit (statusSeq clockSeq : Nat → Nat) (txStarted i fuel : Nat)
    (h : pollExit statusSeq clockSeq txStarted i) :
    pollLoop statusSeq clockSeq txStarted i (fuel + 1) =
      some (decide (statusSeq i &&& TX_DS ≠ 0)) := by
  rcases h with h | h | h
  · simp [pollLoop, h]
  · by_cases h1 : statusSeq i &&& TX_DS ≠ 0
    · simp [pollLoop, h1]
    · simp [pollLoop, h1, h]
  · by_cases h1 : statusSeq i &&& TX_DS ≠ 0
    · simp [pollLoop, h1]
    · by_cases h2 : statusSeq i &&& MAX_RT ≠ 0
      · simp [pollLoop, h1, h2]
      · simp [pollLoop, h1, h2, h]

theorem pollLoop_step (statusSeq clockSeq : Nat → Nat) (txStarted i fuel : Nat)
    (h : ¬ pollExit statusSeq clockSeq txStarted i) :
    pollLoop statusSeq clockSeq txStarted i (fuel + 1) =
      pollLoop statusSeq clockSeq txStarted (i + 1) fuel := by
  unfold pollExit at h
  push_neg at h
  simp [pollLoop, h.1, h.2.1, h.2.2]

theorem pollLoop_eq_of_first_exit (statusSeq clockSeq : Nat → Nat) (txStarted : Nat)
    (fuel : Nat) :
    ∀ (i j : Nat), i ≤ j → j < i + fuel →
      pollExit statusSeq clockSeq txStarted j →
      (∀ k, i ≤ k → k < j → ¬ pollExit statusSeq clockSeq txStarted k) →
      pollLoop statusSeq clockSeq txStarted i fuel =
        some (decide (statusSeq j &&& TX_DS ≠ 0)) := by
  induction fuel with
  | zero => intro i j hij hj _ _; omega
  | succ fuel ih =>
    intro i j hij hj hex hmin
    rcases Nat.eq_or_lt_of_le hij with rfl | hlt
    · exact pollLoop_exit statusSeq clockSeq txStarted i fuel hex
    · rw [pollLoop_step statusSeq clockSeq txStarted i fuel
        (hmin i le_rfl hlt)]
      exact ih (i + 1) j hlt (by omega) hex (fun k hk1 hk2 => hmin k (by omega) hk2)

theorem pollLoop_some_spec (statusSeq clockSeq : Nat → Nat) (txStarted : Nat)
    (fuel : Nat) :
    ∀ (i : Nat) (b : Bool), pollLoop statusSeq clockSeq txStarted i fuel = some b →
      ∃ j, i ≤ j ∧ j < i + fuel ∧ pollExit statusSeq clockSeq txStarted j ∧
        (∀ k, i ≤ k → k < j → ¬ pollExit statusSeq clockSeq txStarted k) ∧
        b = decide (statusSeq j &&& TX_DS ≠ 0) := by
  induction fuel with
  | zero => intro i b h; simp [pollLoop] at h
  | succ fuel ih =>
    intro i b h
    by_cases hex : pollExit statusSeq clockSeq txStarted i
    · rw [pollLoop_exit statusSeq clockSeq txStarted i fuel hex] at h
      exact ⟨i, le_rfl, by omega, hex, fun k hk1 hk2 => by omega, by
        injection h with h; exact h.symm⟩
    · rw [pollLoop_step statusSeq clockSeq txStarted i fuel hex] at h
      obtain ⟨j, hj1, hj2, hj3, hj4, hj5⟩ := ih (i + 1) b h
      refine ⟨j, by omega, by omega, hj3, ?_, hj5⟩
      intro k hk1 hk2
      rcases Nat.eq_or_lt_of_le hk1 with rfl | hk
      · exact hex
      · exact hj4 k hk hk2

/-- C9: for every sequence of status readings and every monotone, unbounded
millisecond clock, the transmit busy-poll terminates: there is a first read
index `j` at which transmit-done, max-retries, or the 500 ms watchdog exit
condition holds, no exit condition holds at any earlier read, and the loop
returns a result with any fuel beyond `j` — so the loop runs exactly until
the first of the three exit causes and never beyond the watchdog window. -/
theorem transmit_poll_terminates (statusSeq clockSeq : Nat → Nat)
    (hmono : Monotone clockSeq) (hunb : ∀ t, ∃ i, t ≤ clockSeq i) :
    ∃ j b, (∀ k, k < j → ¬ pollExit statusSeq clockSeq (clockSeq 0) k) ∧
      pollExit statusSeq clockSeq (clockSeq 0) j ∧
      ∀ fuel, j < fuel →
        pollLoop statusSeq clockSeq (clockSeq 0) 0 fuel = some b := by
  have hex : ∃ j, pollExit statusSeq clockSeq (clockSeq 0) j := by
    obtain ⟨i, hi⟩ := hunb (clockSeq 0 + 500)
    refine ⟨i, Or.inr (Or.inr ?_)⟩
    have h2 : clockSeq i ≤ clockSeq (i + 1) := hmono (by omega)
    omega
  refine ⟨Nat.find hex, decide (statusSeq (Nat.find hex) &&& TX_DS ≠ 0),
    fun k hk => Nat.find_min hex hk, Nat.find_spec hex, fun fuel hfuel => ?_⟩
  exact pollLoop_eq_of_first_exit statusSeq clockSeq (clockSeq 0) fuel 0 (Nat.find hex)
    (Nat.zero_le _) (by omega) (Nat.find_spec hex)
    (fun k _ hk => Nat.find_min hex hk)

/-- C9 witness: a status source that reports transmit-done at once and the
identity clock. -/
theorem transmit_poll_terminates_witness :
    (Monotone (fun i : Nat => i) ∧ ∀ t : Nat, ∃ i, t ≤ (fun i : Nat => i) i) ∧
    ∃ j b, (∀ k, k < j → ¬ pollExit (fun _ => 0x20) (fun i => i) ((fun i : Nat => i) 0) k) ∧
      pollExit (fun _ => 0x20) (fun i => i) ((fun i : Nat => i) 0) j ∧
      ∀ fuel, j < fuel →
        pollLoop (fun _ => 0x20) (fun i => i) ((fun i : Nat => i) 0) 0 fuel = some b :=
  ⟨⟨fun _ _ h => h, fun t => ⟨t, le_rfl⟩⟩,
   transmit_poll_terminates (fun _ => 0x20) (fun i => i) (fun _ _ h => h)
     (fun t => ⟨t, le_rfl⟩)⟩

/-- Transmit-payload uploads, as a trace predicate. -/
def isTxPayloadEv : Ev → Bool
  | Ev.txPayload _ _ => true
  | _ => false

@[simp] theorem isTxPayloadEv_readReg (r : Nat) : isTxPayloadEv (Ev.readReg r) = false := rfl

@[simp] theorem isTxPayloadEv_writeReg (r v : Nat) :
    isTxPayloadEv (Ev.writeReg r v) = false := rfl

@[simp] theorem isTxPayloadEv_writeRegBytes (r : Nat) (bs : List Nat) :
    isTxPayloadEv (Ev.writeRegBytes r bs) = false := rfl

@[simp] theorem isTxPayloadEv_txPayload (a : Bool) (bs : List Nat) :
    isTxPayloadEv (Ev.txPayload a bs) = true := rfl

@[simp] theorem isTxPayloadEv_flushTXCmd : isTxPayloadEv Ev.flushTXCmd = false := rfl

@[simp] theorem isTxPayloadEv_flushRXCmd : isTxPayloadEv Ev.flushRXCmd = false := rfl

@[simp] theorem readRegister_snd_trace (reg : Nat) (s : State) :
    (readRegister reg s).2.trace = Ev.readReg reg :: s.trace := rfl

@[simp] theorem writeRegister_trace (reg v : Nat) (s : State) :
    (writeRegister reg v s).trace = Ev.writeReg reg (v % 256) :: s.trace := rfl

@[simp] theorem writeRegisterBytes_trace (reg : Nat) (bs : List Nat) (s : State) :
    (writeRegisterBytes reg bs s).trace = Ev.writeRegBytes reg (bs.map (· % 256)) :: s.trace := by
  unfold writeRegisterBytes
  split
  · rfl
  · split <;> rfl

theorem setActive_filter_tx (a : Bool) (s : State) :
    (setActive a s).trace.filter isTxPayloadEv = s.trace.filter isTxPayloadEv := by
  simp [setActive, writeRegister, readRegister, List.filter_cons]

theorem startListening_filter_tx (s : State) :
    (startListening s).trace.filter isTxPayloadEv = s.trace.filter isTxPayloadEv := by
  simp only [startListening, writeRegister, writeRegisterBytes, readRegister, ceHigh,
    flushRX, flushTX]
  split <;> simp [List.filter_cons]

theorem restore_filter_tx (P Q : Prop) [Decidable P] [Decidable Q] (s8 : State) :
    (if P then setActive false s8 else
      if Q then startListening s8 else s8).trace.filter isTxPayloadEv =
      s8.trace.filter isTxPayloadEv := by
  split
  · exact setActive_filter_tx false s8
  · split
    · exact startListening_filter_tx s8
    · rfl

/-- `NRF24::transmit` (uint8_t target parameter and payload bytes taken mod
256).  `statusSeq`/`clockSeq` are the status-byte and millis readings the
busy-poll makes (the chip updates the status register asynchronously while
the loop spins); `fuel` bounds the loop, `none` meaning the fuel ran out.
The settling delays (2 ms cold start, activation delay) are real time and
not modelled. -/
def transmit (targetAddress : Nat) (data : List Nat) (ack : Bool)
    (statusSeq clockSeq : Nat → Nat) (fuel : Nat) (s : State) : Option (Bool × State) :=
  let targetAddress := targetAddress % 256
  let length := data.length
  if length = 0 then some (false, s)
  else
    let length := if length > 32 then 32 else length
    let s1 :=
      if s.previousTXAddress ≠ targetAddress then
        { writeRegisterBytes TX_ADDR (assembleFullAddress s.netmask targetAddress) s with
          previousTXAddress := targetAddress }
      else s
    let s2 :=
      if ack ∧ s1.previousRXAddress ≠ targetAddress then
        { writeRegisterBytes RX_ADDR_P0 (assembleFullAddress s1.netmask targetAddress) s1 with
          previousRXAddress := targetAddress }
      else s1
    let r := readRegister STATUS s2
    let s3 := writeRegister STATUS (r.1 ||| RX_DR ||| TX_DS ||| MAX_RT) r.2
    let rc := readRegister CONFIG s3
    let config := rc.1
    let wasActive := config &&& PWR_UP ≠ 0
    let wasListening := rc.2.listening
    let s4 := ceLow rc.2
    let config := (config ||| PWR_UP) &&& 0xFE
    let s5 := writeRegister CONFIG config s4
    let s6 := { s5 with trace := Ev.txPayload ack ((data.take length).map (· % 256)) :: s5.trace }
    let s7 := ceHigh s6
    match pollLoop statusSeq clockSeq (clockSeq 0) 0 fuel with
    | none => none
    | some txComplete =>
      let s8 := ceLow s7
      let s9 :=
        if ¬ wasActive then setActive false s8
        else if wasListening then startListening s8 else s8
      some (txComplete, s9)

/-- C4: `transmit` returns false at once on an empty payload, leaving the
state (registers, trace, everything) untouched; a payload longer than 32
bytes is silently truncated — the one transmit-payload upload of the call
carries exactly the first 32 bytes, and no error is reported. -/
theorem transmit_length_spec (target : Nat) (data : List Nat) (ack : Bool)
    (statusSeq clockSeq : Nat → Nat) (fuel : Nat) (s : State) :
    (data.length = 0 →
      transmit target data ack statusSeq clockSeq fuel s = some (false, s)) ∧
    (data.length > 32 → ∀ b s',
      transmit target data ack statusSeq clockSeq fuel s = some (b, s') →
      s'.trace.filter isTxPayloadEv =
        Ev.txPayload ack ((data.take 32).map (· % 256)) :: s.trace.filter isTxPayloadEv ∧
      ((data.take 32).map (· % 256)).length = 32) := by
  constructor
  · intro h
    simp [transmit, h]
  · intro h32 b s' heq
    have hne : ¬ data.length = 0 := by omega
    simp only [transmit, if_neg hne, if_pos h32] at heq
    rcases hp : pollLoop statusSeq clockSeq (clockSeq 0) 0 fuel with _ | tc
    · rw [hp] at heq
      simp at heq
    · rw [hp] at heq
      simp only [Option.some.injEq, Prod.mk.injEq] at heq
      constructor
      · rw [← heq.2, restore_filter_tx]
        simp only [ceLow_fields, ceHigh_fields, List.filter_cons, writeRegister_trace,
          readRegister_snd_trace, isTxPayloadEv_writeReg, isTxPayloadEv_readReg,
          isTxPayloadEv_txPayload, if_true, if_false, Bool.false_eq_true, reduceIte]
        split <;> split <;>
          simp [List.filter_cons]
      · rw [List.length_map, List.length_take]
        omega

/-- C4 witness: the empty payload returns false with the state untouched; a
33-byte payload results in a single transmit-queue upload of exactly the
first 32 bytes. -/
theorem transmit_length_spec_witness :
    (([] : List Nat).length = 0 ∧
     transmit 0 [] false (fun _ : Nat => 0x20) (fun _ : Nat => 0) 1 (mkState (fun _ => 0)) =
       some (false, mkState (fun _ => 0))) ∧
    ((List.replicate 33 1).length > 32 ∧
     ∃ b s', transmit 0 (List.replicate 33 1) false (fun _ : Nat => 0x20) (fun _ : Nat => 0) 1
         (mkState (fun _ => 0)) = some (b, s') ∧
       s'.trace.filter isTxPayloadEv =
         Ev.txPayload false (((List.replicate 33 1).take 32).map (· % 256)) ::
           (mkState (fun _ => 0)).trace.filter isTxPayloadEv ∧
       (((List.replicate 33 1).take 32).map (· % 256)).length = 32) := by
  refine ⟨⟨rfl, (transmit_length_spec 0 [] false (fun _ : Nat => 0x20) (fun _ : Nat => 0) 1
    (mkState (fun _ => 0))).1 rfl⟩, by norm_num, ?_⟩
  rcases hq : transmit 0 (List.replicate 33 1) false (fun _ : Nat => 0x20) (fun _ : Nat => 0) 1
      (mkState (fun _ => 0)) with _ | p
  · have hs : (transmit 0 (List.replicate 33 1) false (fun _ : Nat => 0x20) (fun _ : Nat => 0) 1
        (mkState (fun _ => 0))).isSome = true := rfl
    rw [hq] at hs
    simp at hs
  · obtain ⟨b, s'⟩ := p
    obtain ⟨h1, h2⟩ := (transmit_length_spec 0 (List.replicate 33 1) false (fun _ : Nat => 0x20)
      (fun _ : Nat => 0) 1 (mkState (fun _ => 0))).2 (by norm_num) b s' hq
    exact ⟨b, s', rfl, h1, h2⟩

theorem pollLoop_result_iff (statusSeq clockSeq : Nat → Nat) (txStarted fuel : Nat) (b : Bool)
    (h : pollLoop statusSeq clockSeq txStarted 0 fuel = some b) :
    (b = true ↔ ∃ j, j < fuel ∧ statusSeq j &&& TX_DS ≠ 0 ∧
      ∀ k, k < j → ¬ pollExit statusSeq clockSeq txStarted k) := by
  obtain ⟨j, _, hj2, hj3, hj4, hj5⟩ := pollLoop_some_spec statusSeq clockSeq txStarted fuel 0 b h
  constructor
  · intro hb
    rw [hb] at hj5
    refine ⟨j, by omega, by simpa using hj5.symm, fun k hk => hj4 k (by omega) hk⟩
  · rintro ⟨j', hj'1, hj'2, hj'3⟩
    have hjj : j = j' := by
      by_contra hne
      rcases Nat.lt_or_ge j j' with hlt | hge
      · exact hj'3 j hlt hj3
      · exact hj4 j' (by omega) (by omega) (Or.inl hj'2)
    rw [hj5, hjj]
    simpa using hj'2

/-- C5: for every completed `transmit` call (non-empty payload, fuel
sufficient for the loop to exit), the returned boolean is true exactly when
the transmit-done flag was observed at the poll read on which the loop
exited; an exit caused by the max-retries flag or by the 500 ms watchdog
gives false, and the two failure causes produce the identical return value,
indistinguishable from the result alone. -/
theorem transmit_result_iff (target : Nat) (data : List Nat) (ack : Bool)
    (statusSeq clockSeq : Nat → Nat) (fuel : Nat) (s : State) (b : Bool)
    (hne : ¬ data.length = 0)
    (hb : (transmit target data ack statusSeq clockSeq fuel s).map Prod.fst = some b) :
    (b = true ↔ ∃ j, j < fuel ∧ statusSeq j &&& TX_DS ≠ 0 ∧
      ∀ k, k < j → ¬ pollExit statusSeq clockSeq (clockSeq 0) k) := by
  simp only [transmit, if_neg hne] at hb
  rcases hp : pollLoop statusSeq clockSeq (clockSeq 0) 0 fuel with _ | tc
  · rw [hp] at hb
    simp at hb
  · rw [hp] at hb
    simp only [Option.map_some'] at hb
    obtain rfl : tc = b := by injection hb
    exact pollLoop_result_iff statusSeq clockSeq (clockSeq 0) fuel tc hp

/-- C5 witness: a status source that reports transmit-done on the first
poll. -/
theorem transmit_result_iff_witness :
    (¬ ([1] : List Nat).length = 0 ∧
     (transmit 0 [1] false (fun _ : Nat => 0x20) (fun _ : Nat => 0) 1
        (mkState (fun _ => 0))).map Prod.fst = some true) ∧
    (true = true ↔ ∃ j, j < 1 ∧ (fun _ : Nat => 0x20) j &&& TX_DS ≠ 0 ∧
      ∀ k, k < j → ¬ pollExit (fun _ : Nat => 0x20) (fun _ : Nat => 0) 0 k) :=
  ⟨⟨by decide, rfl⟩, transmit_result_iff 0 [1] false (fun _ : Nat => 0x20) (fun _ : Nat => 0) 1
    (mkState (fun _ => 0)) true (by decide) rfl⟩

/-- Cache coherence for pipe 0: the bytes last programmed into the pipe-0
address register match the driver's cached `previousRXAddress`.  This is the
invariant `setAddress` establishes and every operation maintains. -/
def Pipe0Inv (s : State) : Prop :=
  s.rxAddrP0 = assembleFullAddress s.netmask s.previousRXAddress

theorem assembleFullAddress_map_mod (m a : Nat) :
    (assembleFullAddress m a).map (· % 256) = assembleFullAddress m a := by
  have h : ∀ x : Nat, x % 256 % 256 = x % 256 := fun x => Nat.mod_mod_of_dvd x dvd_rfl
  simp [assembleFullAddress, and_255_eq_mod, Nat.shiftRight_eq_div_pow, h]

@[simp] theorem writeRegisterBytes_TX_rxAddrP0 (bs : List Nat) (s : State) :
    (writeRegisterBytes TX_ADDR bs s).rxAddrP0 = s.rxAddrP0 :=
  writeRegisterBytes_rxAddrP0_ne TX_ADDR bs s (by decide)

theorem startListening_pipe0 (s : State) (hinv : Pipe0Inv s) :
    (startListening s).rxAddrP0 = assembleFullAddress s.netmask s.ownAddress := by
  simp only [startListening]
  split
  · simp [assembleFullAddress_map_mod]
  · simp_all [Pipe0Inv]

theorem startListening_pipe0_inv (s : State) (hinv : Pipe0Inv s) :
    Pipe0Inv (startListening s) := by
  unfold Pipe0Inv
  have h1 := startListening_pipe0 s hinv
  have h2 := (startListening_effects s).2.2.2.1
  have h3 : (startListening s).netmask = s.netmask := (startListening_effects s).2.2.1
  rw [h1, h2, h3]

theorem restore_pipe0 (P Q : Prop) [Decidable P] [Decidable Q] (t s : State)
    (h : Pipe0Inv t) (ho : t.ownAddress = s.ownAddress) (hn : t.netmask = s.netmask) :
    Pipe0Inv (if P then setActive false t else if Q then startListening t else t) ∧
    (if P then setActive false t else
      if Q then startListening t else t).ownAddress = s.ownAddress ∧
    (if P then setActive false t else
      if Q then startListening t else t).netmask = s.netmask := by
  split
  · refine ⟨?_, ?_, ?_⟩ <;> simp_all [Pipe0Inv, setActive]
  · split
    · exact ⟨startListening_pipe0_inv t h,
        by rw [(startListening_effects t).2.1, ho],
        by rw [(startListening_effects t).2.2.1, hn]⟩
    · exact ⟨h, ho, hn⟩

theorem transmit_pipe0 (target : Nat) (data : List Nat) (ack : Bool)
    (statusSeq clockSeq : Nat → Nat) (fuel : Nat) (s : State) (b : Bool) (s' : State)
    (hinv : Pipe0Inv s)
    (heq : transmit target data ack statusSeq clockSeq fuel s = some (b, s')) :
    Pipe0Inv s' ∧ s'.ownAddress = s.ownAddress ∧ s'.netmask = s.netmask := by
  by_cases h0 : data.length = 0
  · simp only [transmit, if_pos h0, Option.some.injEq, Prod.mk.injEq] at heq
    rw [← heq.2]
    exact ⟨hinv, rfl, rfl⟩
  · simp only [transmit, if_neg h0] at heq
    rcases hp : pollLoop statusSeq clockSeq (clockSeq 0) 0 fuel with _ | tc
    · rw [hp] at heq
      simp at heq
    · rw [hp] at heq
      simp only [Option.some.injEq, Prod.mk.injEq] at heq
      rw [← heq.2]
      apply restore_pipe0
      · simp only [Pipe0Inv, writeRegister_fields, readRegister_snd_fields,
          ceLow_fields, ceHigh_fields]
        repeat' split
        all_goals simp_all [Pipe0Inv, assembleFullAddress_map_mod]
      · simp only [writeRegister_fields, readRegister_snd_fields, ceLow_fields,
          ceHigh_fields]
        repeat' split
        all_goals simp_all
      · simp only [writeRegister_fields, readRegister_snd_fields, ceLow_fields,
          ceHigh_fields]
        repeat' split
        all_goals simp_all

/-- C6: whenever the pipe-0 cache is coherent, `startListening` leaves pipe
0's programmed 5-byte address equal to the one assembled from the driver's
own node address and resets the cached pipe-0 address to the own address —
including immediately after a completed `transmit` (which may have diverted
pipe 0 to the target address to catch the acknowledgment). -/
theorem startListening_restores_pipe0 (s : State) (hinv : Pipe0Inv s) :
    ((startListening s).rxAddrP0 = assembleFullAddress s.netmask s.ownAddress ∧
     (startListening s).previousRXAddress = s.ownAddress) ∧
    (∀ (target : Nat) (data : List Nat) (ack : Bool) (statusSeq clockSeq : Nat → Nat)
        (fuel : Nat) (b : Bool) (s' : State),
      transmit target data ack statusSeq clockSeq fuel s = some (b, s') →
      (startListening s').rxAddrP0 = assembleFullAddress s.netmask s.ownAddress ∧
      (startListening s').previousRXAddress = s.ownAddress) := by
  refine ⟨⟨startListening_pipe0 s hinv, (startListening_effects s).2.2.2.1⟩, ?_⟩
  intro target data ack statusSeq clockSeq fuel b s' heq
  obtain ⟨hinv', hown, hnm⟩ :=
    transmit_pipe0 target data ack statusSeq clockSeq fuel s b s' hinv heq
  constructor
  · rw [startListening_pipe0 s' hinv', hown, hnm]
  · rw [(startListening_effects s').2.2.2.1, hown]

/-- C6 witness: a coherent driver state produced by `setAddress`. -/
theorem startListening_restores_pipe0_witness :
    Pipe0Inv (setAddress 1 (mkState (fun _ => 0))) ∧
    (((startListening (setAddress 1 (mkState (fun _ => 0)))).rxAddrP0 =
        assembleFullAddress (setAddress 1 (mkState (fun _ => 0))).netmask
          (setAddress 1 (mkState (fun _ => 0))).ownAddress ∧
      (startListening (setAddress 1 (mkState (fun _ => 0)))).previousRXAddress =
        (setAddress 1 (mkState (fun _ => 0))).ownAddress) ∧
     (∀ (target : Nat) (data : List Nat) (ack : Bool) (statusSeq clockSeq : Nat → Nat)
         (fuel : Nat) (b : Bool) (s' : State),
       transmit target data ack statusSeq clockSeq fuel
           (setAddress 1 (mkState (fun _ => 0))) = some (b, s') →
       (startListening s').rxAddrP0 =
         assembleFullAddress (setAddress 1 (mkState (fun _ => 0))).netmask
           (setAddress 1 (mkState (fun _ => 0))).ownAddress ∧
       (startListening s').previousRXAddress =
         (setAddress 1 (mkState (fun _ => 0))).ownAddress)) :=
  ⟨rfl, startListening_restores_pipe0 (setAddress 1 (mkState (fun _ => 0))) rfl⟩

/-- The driver's data-rate choices (`nrf24_datarate_e`). -/
inductive nrf24_datarate_e where
  | NRF24_250KBPS
  | NRF24_1MBPS
  | NRF24_2MBPS
  deriving Repr, DecidableEq

/-- The driver's power-amplification choices (`nrf24_pa_level_e`). -/
inductive nrf24_pa_level_e where
  | NRF24_PA_MIN
  | NRF24_PA_MID
  | NRF24_PA_HIGH
  | NRF24_PA_MAX
  deriving Repr, DecidableEq

/-- The driver's CRC choices (`nrf24_crc_mode_e`). -/
inductive nrf24_crc_mode_e where
  | NRF24_NO_CRC
  | NRF24_CRC_8BIT
  | NRF24_CRC_16BIT
  deriving Repr, DecidableEq

/-- `NRF24::setChannel`. -/
def setChannel (channel : Nat) (s : State) : State :=
  writeRegister RF_CH (channel &&& 0x7F) s

/-- `NRF24::setDataRate` (`&= ~(RF_DR_HIGH | RF_DR_LOW)` on a byte is
`&&& 0xD7`). -/
def setDataRate (dataRate : nrf24_datarate_e) (s : State) : State :=
  let r := readRegister RF_SETUP s
  let rfSetup := r.1 &&& 0xD7
  let rfSetup :=
    if dataRate = nrf24_datarate_e.NRF24_250KBPS then rfSetup ||| RF_DR_LOW
    else if dataRate = nrf24_datarate_e.NRF24_2MBPS then rfSetup ||| RF_DR_HIGH
    else rfSetup
  writeRegister RF_SETUP rfSetup r.2

/-- `NRF24::setPowerAmplificationLevel` (`&= ~0x6` on a byte is `&&& 0xF9`). -/
def setPowerAmplificationLevel (level : nrf24_pa_level_e) (s : State) : State :=
  let r := readRegister RF_SETUP s
  let rfSetup := r.1 &&& 0xF9
  let rfSetup :=
    if level = nrf24_pa_level_e.NRF24_PA_MID then rfSetup ||| RF_PA_LOW
    else if level = nrf24_pa_level_e.NRF24_PA_HIGH then rfSetup ||| RF_PA_HIGH
    else if level = nrf24_pa_level_e.NRF24_PA_MAX then rfSetup ||| RF_PA_LOW ||| RF_PA_HIGH
    else rfSetup
  writeRegister RF_SETUP rfSetup r.2

/-- `NRF24::setCRCMode` (`&= ~EN_CRC` then `&= ~CRCO` on a byte is
`&&& 0xF7 &&& 0xFB`; the NO_CRC case returns before writing). -/
def setCRCMode (mode : nrf24_crc_mode_e) (s : State) : State :=
  let r := readRegister CONFIG s
  let config := r.1 &&& 0xF7 &&& 0xFB
  if mode = nrf24_crc_mode_e.NRF24_NO_CRC then r.2
  else
    let config := config ||| EN_CRC
    let config := if mode = nrf24_crc_mode_e.NRF24_CRC_16BIT then config ||| CRCO else config
    writeRegister CONFIG config r.2

/-- `NRF24::setRetries`. -/
def setRetries (delay count : Nat) (s : State) : State :=
  let delay := if delay > 0xF then 0xF else delay
  let count := if count > 0xF then 0xF else count
  writeRegister SETUP_RETR ((delay <<< 4) ||| count) s

/-- `NRF24::setACKEnabled`. -/
def setACKEnabled (ack : Bool) (s : State) : State :=
  { s with ackEnabled := ack }

/-- `NRF24::begin`: the full power-on initialization sequence (pin/bus setup,
the 100 ms power-on-reset wait and the settling delays are hardware-side and
not modelled; `ENAA_P0|..|ENAA_P5` and `DPL_P0|..|DPL_P5` are the byte 0x3F;
the `previousPipe` member that `begin` also clears is never read anywhere in
the translation unit and is omitted).  The function ends with
`return false;` unconditionally. -/
def begin (cePin csnPin netmask : Nat) (s : State) : Bool × State :=
  let s := ceLow s
  let s := { s with netmask := netmask % 2 ^ 32 }
  let s := setRetries 15 15 s
  let s := setPowerAmplificationLevel nrf24_pa_level_e.NRF24_PA_MAX s
  let s := setDataRate nrf24_datarate_e.NRF24_2MBPS s
  let s := setCRCMode nrf24_crc_mode_e.NRF24_CRC_16BIT s
  let s := setChannel 76 s
  let s := writeRegister ACTIVATE 0x73 s
  let r := readRegister FEATURE s
  let s := writeRegister FEATURE (r.1 ||| EN_DPL ||| EN_ACK_PAY ||| EN_DYN_ACK) r.2
  let s := writeRegister EN_AA 0x3F s
  let s := writeRegister DYNPD 0x3F s
  let s := writeRegister SETUP_AW 0x3 s
  let r2 := readRegister STATUS s
  let s := writeRegister STATUS (r2.1 ||| RX_DR ||| TX_DS ||| MAX_RT) r2.2
  let s := setActive false s
  let s := { s with numPipes := 0, previousTXAddress := 0 }
  let s := setACKEnabled true s
  let s := flushRX s
  let s := flushTX s
  (false, s)

/-- C10: `begin` performs the whole initialization sequence and then returns
false unconditionally, for every choice of pins, network mask and starting
state — the result never signals success. -/
theorem begin_returns_false (cePin csnPin netmask : Nat) (s : State) :
    (begin cePin csnPin netmask s).1 = false := rfl

end NRF24

